import Mathlib

/-!
Verification development for the transfermarkt-api fetch-and-extract service.

Each section shallowly embeds one component of the Python source
(`app/services/base.py`, `app/services/clubs/players.py`,
`app/services/competitions/clubs.py`, `app/services/players/search.py`)
as executable Lean definitions and proves the specified properties about them.

Modelling conventions:
* Python `str` is Lean `String`; `text.lower()`, `needle in hay` and `len(text)`
  are modelled character-wise by `pyLower`, `pyContains` and `pyLen` below.
* An HTML document is abstracted by the tuple of results that the source's
  XPath queries return on it; each embedded parser takes those result lists
  as arguments.
* Helper functions that live in `app/utils/utils.py` (not part of the sources,
  e.g. `extract_from_url`, `safe_regex`, `trim`) are taken as parameters of the
  embedded parsers, so every theorem quantifies over their behaviour.
* Python exceptions are `Except`; a Python function that can fall off the end
  of a loop and implicitly return `None` gets an explicit constructor for that
  outcome.
-/

set_option maxRecDepth 8192

namespace TM

/-- Character-wise model of Python's `str.lower()` (the source only ever
compares ASCII keywords, for which Python's `lower` is character-wise). -/
def pyLower (s : String) : String := ⟨s.data.map Char.toLower⟩

/-- `listBeginsWith needle hay` holds when `needle` is an initial segment of `hay`. -/
def listBeginsWith : List Char → List Char → Bool
  | [], _ => true
  | _ :: _, [] => false
  | a :: as, b :: bs => a == b && listBeginsWith as bs

/-- Substring search on character lists. -/
def listHasSub (needle : List Char) : List Char → Bool
  | [] => needle.isEmpty
  | c :: rest => listBeginsWith needle (c :: rest) || listHasSub needle rest

/-- Model of Python's `needle in hay` substring test. -/
def pyContains (hay needle : String) : Bool := listHasSub needle.data hay.data

/-- Model of Python's `len` on a string. -/
def pyLen (s : String) : Nat := s.data.length

theorem string_data_append (s t : String) : (s ++ t).data = s.data ++ t.data := rfl

theorem pyLen_append (s t : String) : pyLen (s ++ t) = pyLen s + pyLen t := by
  simp [pyLen, string_data_append]

theorem pyLen_mk (l : List Char) : pyLen ⟨l⟩ = l.length := rfl

theorem pyLen_mk_replicate (n : Nat) (c : Char) : pyLen ⟨List.replicate n c⟩ = n := by
  simp [pyLen]

theorem pyLower_append (s t : String) : pyLower (s ++ t) = pyLower s ++ pyLower t := by
  simp only [pyLower, string_data_append, List.map_append]
  rfl

theorem pyLower_mk_replicate_a (n : Nat) :
    pyLower ⟨List.replicate n 'a'⟩ = ⟨List.replicate n 'a'⟩ := by
  simp [pyLower]

theorem listBeginsWith_append (l r : List Char) : listBeginsWith l (l ++ r) = true := by
  induction l with
  | nil => rfl
  | cons a as ih => simp [listBeginsWith, ih]

theorem listHasSub_append_self (n r : List Char) : listHasSub n (n ++ r) = true := by
  cases n with
  | nil =>
    cases r with
    | nil => rfl
    | cons c cs => simp [listHasSub, listBeginsWith]
  | cons c cs =>
    simp only [List.cons_append, listHasSub, Bool.or_eq_true]
    left
    exact listBeginsWith_append (c :: cs) r

theorem listHasSub_cons_replicate (c d : Char) (cs : List Char) (h : c ≠ d) :
    ∀ m : Nat, listHasSub (c :: cs) (List.replicate m d) = false := by
  intro m
  induction m with
  | zero => rfl
  | succ k ih =>
    simp only [List.replicate_succ, listHasSub, listBeginsWith]
    simp [ih, h]

/-! ## Block detector (`TransfermarktBase._detect_block`, base.py lines 819-869) -/

/-- The explicit block phrases listed in `_detect_block`. -/
def explicit_block_phrases : List String :=
  ["access denied",
   "you have been blocked",
   "your access has been blocked",
   "rate limit exceeded",
   "too many requests"]

/-- Shallow embedding of `TransfermarktBase._detect_block`.  `status_code` and
`text` are the fields of the HTTP response read by the source. -/
def detect_block (status_code : Nat) (text : String) : Bool :=
  let text_lower := pyLower text
  if status_code = 403 ∨ status_code = 429 ∨ status_code = 503 then
    if status_code = 403 ∧ pyLen text > 5000 ∧ pyContains text_lower "transfermarkt" then
      false
    else
      true
  else if pyLen text < 1000 ∧ ¬ (pyContains text_lower "transfermarkt" = true) then
    true
  else if status_code ≥ 400 ∧ explicit_block_phrases.any (fun p => pyContains text_lower p) then
    true
  else if (pyContains text_lower "captcha" = true
            ∧ (pyContains text_lower "solve" = true ∨ pyContains text_lower "verify" = true))
          ∨ pyContains text_lower "recaptcha" = true
          ∨ pyContains text_lower "hcaptcha" = true then
    true
  else
    false

/-- Modelled from the spec: the Block Detector contract of section 4.2, an
ordered first-match-wins rule list over `(statusCode, bodyText)`. -/
def spec_isBlocked (statusCode : Nat) (bodyText : String) : Bool :=
  let lower := pyLower bodyText
  if statusCode = 403 ∨ statusCode = 429 ∨ statusCode = 503 then
    decide (¬ (statusCode = 403 ∧ pyLen bodyText > 5000 ∧ pyContains lower "transfermarkt"))
  else if pyLen bodyText < 1000 ∧ ¬ (pyContains lower "transfermarkt" = true) then
    true
  else if statusCode ≥ 400 ∧ explicit_block_phrases.any (fun p => pyContains lower p) then
    true
  else if (pyContains lower "captcha" = true
            ∧ (pyContains lower "solve" = true ∨ pyContains lower "verify" = true))
          ∨ pyContains lower "recaptcha" = true
          ∨ pyContains lower "hcaptcha" = true then
    true
  else
    false

/-- A large 403 body that carries the brand string. -/
def brandedBody : String := "transfermarkt" ++ ⟨List.replicate 5987 'a'⟩

/-- A short unbranded 403 body. -/
def shortBody403 : String := ⟨List.replicate 200 'a'⟩

/-- A small unbranded 200 body. -/
def smallBody200 : String := ⟨List.replicate 500 'a'⟩

/-- A 5000-character 200 body containing the word recaptcha. -/
def captchaBody : String := "recaptcha" ++ ⟨List.replicate 4991 'a'⟩

theorem pyLen_brandedBody : pyLen brandedBody = 6000 := by
  have h13 : pyLen "transfermarkt" = 13 := rfl
  rw [brandedBody, pyLen_append, h13, pyLen_mk_replicate]

theorem brandedBody_has_brand : pyContains (pyLower brandedBody) "transfermarkt" = true := by
  have h : pyLower brandedBody = "transfermarkt" ++ ⟨List.replicate 5987 'a'⟩ := by
    rw [brandedBody, pyLower_append, pyLower_mk_replicate_a]
    rfl
  rw [h]
  exact listHasSub_append_self _ _

theorem pyLen_shortBody403 : pyLen shortBody403 = 200 := pyLen_mk_replicate 200 'a'

theorem pyLen_smallBody200 : pyLen smallBody200 = 500 := pyLen_mk_replicate 500 'a'

theorem smallBody200_no_brand : pyContains (pyLower smallBody200) "transfermarkt" = false := by
  have h : pyLower smallBody200 = ⟨List.replicate 500 'a'⟩ := pyLower_mk_replicate_a 500
  rw [h]
  exact listHasSub_cons_replicate 't' 'a' _ (by decide) 500

theorem pyLen_captchaBody : pyLen captchaBody = 5000 := by
  have h9 : pyLen "recaptcha" = 9 := rfl
  rw [captchaBody, pyLen_append, h9, pyLen_mk_replicate]

theorem captchaBody_has_recaptcha : pyContains (pyLower captchaBody) "recaptcha" = true := by
  have h : pyLower captchaBody = "recaptcha" ++ ⟨List.replicate 4991 'a'⟩ := by
    rw [captchaBody, pyLower_append, pyLower_mk_replicate_a]
    rfl
  rw [h]
  exact listHasSub_append_self _ _

/-- C3: `_detect_block` implements exactly the ordered first-match-wins rule
list of the spec (statuses 403/429/503 blocked unless a large branded 403;
then short unbranded bodies; then explicit block phrases gated on status ≥ 400;
then CAPTCHA indicators; else not blocked), and in particular a 6000-character
branded 403 is not blocked, a 200-character 403 is blocked, a 500-character
unbranded 200 is blocked, and a 5000-character 200 body containing "recaptcha"
is blocked. -/
theorem claim_C3_block_detector :
    (∀ (s : Nat) (b : String), detect_block s b = spec_isBlocked s b)
    ∧ (pyLen brandedBody = 6000 ∧ pyContains (pyLower brandedBody) "transfermarkt" = true
        ∧ detect_block 403 brandedBody = false)
    ∧ (pyLen shortBody403 = 200 ∧ detect_block 403 shortBody403 = true)
    ∧ (pyLen smallBody200 = 500 ∧ pyContains (pyLower smallBody200) "transfermarkt" = false
        ∧ detect_block 200 smallBody200 = true)
    ∧ (pyLen captchaBody = 5000 ∧ pyContains (pyLower captchaBody) "recaptcha" = true
        ∧ detect_block 200 captchaBody = true) := by
  refine ⟨?_, ⟨pyLen_brandedBody, brandedBody_has_brand, ?_⟩,
    ⟨pyLen_shortBody403, ?_⟩,
    ⟨pyLen_smallBody200, smallBody200_no_brand, ?_⟩,
    ⟨pyLen_captchaBody, captchaBody_has_recaptcha, ?_⟩⟩
  · intro s b
    unfold detect_block spec_isBlocked
    by_cases h1 : s = 403 ∨ s = 429 ∨ s = 503
    · by_cases h2 : s = 403 ∧ pyLen b > 5000 ∧ pyContains (pyLower b) "transfermarkt"
      · simp [h1, h2]
      · simp [h1, h2]
    · simp [h1]
  · have hl : pyLen brandedBody > 5000 := by rw [pyLen_brandedBody]; norm_num
    simp [detect_block, hl, brandedBody_has_brand]
  · have hl : ¬ (pyLen shortBody403 > 5000) := by rw [pyLen_shortBody403]; norm_num
    simp [detect_block, hl]
  · have hl : pyLen smallBody200 < 1000 := by rw [pyLen_smallBody200]; norm_num
    simp [detect_block, hl, smallBody200_no_brand]
  · have hl : ¬ (pyLen captchaBody < 1000) := by rw [pyLen_captchaBody]; norm_num
    simp [detect_block, hl, captchaBody_has_recaptcha]

/-! ## Retry manager (`RetryManager`, base.py lines 549-650)

The loop body of `execute_with_retry` is embedded with the attempt index made
explicit.  An operation is a function from the attempt index (0-based) to the
outcome of that call.  Only exceptions of the caught family
(`requests.exceptions.RequestException`, `HTTPException`) occur in this model,
matching the errors the wrapped `_single_request` raises; `PyErr.http st`
carries a `status_code` attribute, `PyErr.request` has none.  The Python
function can fall off the end of its `for` loop and implicitly return `None`;
that outcome is the explicit constructor `RetryResult.noResult`.  The number of
`_monitor.record_retry()` calls performed is threaded through as `retries`. -/

/-- An exception of the family caught by `execute_with_retry`. -/
inductive PyErr where
  | http (status_code : Nat)
  | request
deriving DecidableEq, Repr

/-- The `status_code` attribute, when present (`hasattr(e, "status_code")`). -/
def PyErr.statusAttr : PyErr → Option Nat
  | .http st => some st
  | .request => none

/-- Observable outcome of `execute_with_retry`: a returned value, a raised
exception, or Python's implicit `None` after the loop ends, each together with
the number of retries recorded to the monitor. -/
inductive RetryResult (α : Type) where
  | ok (retries : Nat) (a : α)
  | raised (retries : Nat) (e : PyErr)
  | noResult (retries : Nat)
deriving DecidableEq, Repr

/-- The `max_attempts` field set in `RetryManager.__init__`. -/
def max_attempts : Nat := 3

/-- One iteration of the loop of `execute_with_retry`, starting at `attempt`
with `fuel = max_attempts - attempt` iterations left and `retries` retries
recorded so far. -/
def retryLoop (func : Nat → Except PyErr α) : (fuel attempt retries : Nat) → RetryResult α
  | 0, _, retries => .noResult retries
  | fuel + 1, attempt, retries =>
    let retries := if attempt > 0 then retries + 1 else retries
    match func attempt with
    | .ok a => .ok retries a
    | .error e =>
      match e.statusAttr with
      | some st =>
        if 400 ≤ st ∧ st < 500 then
          if st = 429 ∨ st = 503 then
            retryLoop func fuel (attempt + 1) retries
          else
            .raised retries e
        else if attempt = max_attempts - 1 then
          .raised retries e
        else
          retryLoop func fuel (attempt + 1) retries
      | none =>
        if attempt = max_attempts - 1 then
          .raised retries e
        else
          retryLoop func fuel (attempt + 1) retries

/-- Shallow embedding of `RetryManager.execute_with_retry`. -/
def execute_with_retry (func : Nat → Except PyErr α) : RetryResult α :=
  retryLoop func max_attempts 0 0

/-- Same loop as `retryLoop` but without the `_monitor.record_retry()` call,
as in the body of `execute_with_retry_async`. -/
def retryLoopAsync (func : Nat → Except PyErr α) : (fuel attempt retries : Nat) → RetryResult α
  | 0, _, retries => .noResult retries
  | fuel + 1, attempt, retries =>
    match func attempt with
    | .ok a => .ok retries a
    | .error e =>
      match e.statusAttr with
      | some st =>
        if 400 ≤ st ∧ st < 500 then
          if st = 429 ∨ st = 503 then
            retryLoopAsync func fuel (attempt + 1) retries
          else
            .raised retries e
        else if attempt = max_attempts - 1 then
          .raised retries e
        else
          retryLoopAsync func fuel (attempt + 1) retries
      | none =>
        if attempt = max_attempts - 1 then
          .raised retries e
        else
          retryLoopAsync func fuel (attempt + 1) retries

/-- Shallow embedding of `RetryManager.execute_with_retry_async`. -/
def execute_with_retry_async (func : Nat → Except PyErr α) : RetryResult α :=
  retryLoopAsync func max_attempts 0 0

/-- An operation that fails with a 503-tagged `HTTPException` on the first two
attempts and then succeeds. -/
def op503TwiceThenOk : Nat → Except PyErr Nat :=
  fun attempt => if attempt < 2 then .error (.http 503) else .ok 42

/-- An operation that always fails with a 429-tagged `HTTPException`. -/
def opAlways429 : Nat → Except PyErr Nat := fun _ => .error (.http 429)

/-- An operation that always fails with a 404-tagged `HTTPException`. -/
def opAlways404 : Nat → Except PyErr Nat := fun _ => .error (.http 404)

/-- C4: evaluating `execute_with_retry` at the failing input.  An operation
failing twice with 503 then succeeding returns the success with exactly 2
recorded retries, a 404-tagged error propagates immediately with 0 retries, a
generic exception is retried until the 3 attempts are exhausted and then
raised, but an operation failing on all 3 attempts with a 429-tagged error
makes the loop fall off its end and return Python's implicit `None` instead of
propagating the last error, contradicting the claim (and the function's own
docstring). -/
theorem claim_C4_retry_silent_none :
    execute_with_retry op503TwiceThenOk = .ok 2 42
    ∧ execute_with_retry opAlways404 = .raised 0 (.http 404)
    ∧ execute_with_retry (fun _ => (.error .request : Except PyErr Nat)) = .raised 2 .request
    ∧ execute_with_retry opAlways429 = .noResult 2 := by
  refine ⟨rfl, rfl, rfl, rfl⟩

/-- Result of a retry run with the recorded retry count erased. -/
def RetryResult.outcome : RetryResult α → RetryResult α
  | .ok _ a => .ok 0 a
  | .raised _ e => .raised 0 e
  | .noResult _ => .noResult 0

/-- The recorded retry count of a retry run. -/
def RetryResult.retries : RetryResult α → Nat
  | .ok r _ => r
  | .raised r _ => r
  | .noResult r => r

theorem retryLoopAsync_retries (func : Nat → Except PyErr α) :
    ∀ fuel attempt retries, (retryLoopAsync func fuel attempt retries).retries = retries := by
  intro fuel
  induction fuel with
  | zero => intro attempt retries; rfl
  | succ k ih =>
    intro attempt retries
    simp only [retryLoopAsync]
    cases func attempt with
    | ok a => rfl
    | error e =>
      cases he : e.statusAttr with
      | some st =>
        by_cases h1 : 400 ≤ st ∧ st < 500
        · by_cases h2 : st = 429 ∨ st = 503
          · simp [he, h1, h2, ih]
          · simp [he, h1, h2, RetryResult.retries]
        · by_cases h3 : attempt = max_attempts - 1
          · simp [he, h1, h3, RetryResult.retries]
          · simp [he, h1, h3, ih]
      | none =>
        by_cases h3 : attempt = max_attempts - 1
        · simp [he, h3, RetryResult.retries]
        · simp [he, h3, ih]

theorem retryLoop_outcome_eq_async (func : Nat → Except PyErr α) :
    ∀ fuel attempt retries retries',
      (retryLoop func fuel attempt retries).outcome
        = (retryLoopAsync func fuel attempt retries').outcome := by
  intro fuel
  induction fuel with
  | zero => intro attempt retries retries'; rfl
  | succ k ih =>
    intro attempt retries retries'
    simp only [retryLoop, retryLoopAsync]
    cases func attempt with
    | ok a => rfl
    | error e =>
      cases he : e.statusAttr with
      | some st =>
        by_cases h1 : 400 ≤ st ∧ st < 500
        · by_cases h2 : st = 429 ∨ st = 503
          · simp only [he, if_pos h1, if_pos h2]
            exact ih _ _ _
          · simp [he, h1, h2, RetryResult.outcome]
        · by_cases h3 : attempt = max_attempts - 1
          · simp [he, h1, h3, RetryResult.outcome]
          · simp only [he]
            simp only [if_neg h1, if_neg h3]
            exact ih _ _ _
      | none =>
        by_cases h3 : attempt = max_attempts - 1
        · simp [he, h3, RetryResult.outcome]
        · simp only [he]
          simp only [if_neg h3]
          exact ih _ _ _

/-- An operation failing once with a 503-tagged error, then succeeding. -/
def op503OnceThenOk : Nat → Except PyErr Nat :=
  fun attempt => if attempt = 0 then .error (.http 503) else .ok 7

/-- C7 counterexample: the async retry variant does not have semantics
identical to the synchronous one: on an operation that fails once with a
503-tagged error and then succeeds, the synchronous variant records 1 retry
while the async variant records 0, because its loop body performs no
`_monitor.record_retry()` call. -/
theorem claim_C7_async_counterexample :
    execute_with_retry op503OnceThenOk ≠ execute_with_retry_async op503OnceThenOk
    ∧ (execute_with_retry op503OnceThenOk).retries = 1
    ∧ (execute_with_retry_async op503OnceThenOk).retries = 0 := by
  refine ⟨by decide, rfl, rfl⟩

/-- C7 amended: for every operation, `execute_with_retry_async` reaches the
same observable outcome (returned value, raised error, or implicit `None`) as
the synchronous `execute_with_retry`, with the same attempt bound and
retryable-versus-fatal classification; but unlike the synchronous variant it
never increments the retry monitoring counter. -/
theorem claim_C7_async_same_outcome_no_retry_count (α : Type) (func : Nat → Except PyErr α) :
    (execute_with_retry func).outcome = (execute_with_retry_async func).outcome
    ∧ (execute_with_retry_async func).retries = 0 := by
  exact ⟨retryLoop_outcome_eq_async func max_attempts 0 0 0,
    retryLoopAsync_retries func max_attempts 0 0⟩

/-! ## Session manager (`SmartSessionManager.get_session`, base.py lines 87-125)

The session table `self.sessions` is a Python dict from session id to a record
holding the `requests.Session` object and its creation timestamp; insertion
order is preserved.  Session objects are abstracted by a freshness counter
`nextObj` (distinct constructions yield distinct objects).  `time.time()` is
passed in explicitly as `now`. -/

/-- One entry of `self.sessions`: key, session object, `created_at`. -/
structure SessionEntry where
  key : String
  sessionObj : Nat
  created_at : Nat
deriving DecidableEq, Repr

/-- The mutable state of a `SmartSessionManager`. -/
structure SessionState where
  table : List SessionEntry
  nextObj : Nat
  sessions_created : Nat
  session_timeout : Nat
  max_sessions : Nat
deriving DecidableEq, Repr

/-- Python dict assignment `self.sessions[session_id] = data`: replace in
place if the key exists, else append. -/
def dictInsert (t : List SessionEntry) (e : SessionEntry) : List SessionEntry :=
  if t.any (fun x => x.key = e.key) then
    t.map (fun x => if x.key = e.key then e else x)
  else
    t ++ [e]

/-- First created-at minimum of the table (`min(..., key=created_at)` returns
the first minimal entry in iteration order). -/
def minCreated : List SessionEntry → Option Nat
  | [] => none
  | e :: rest => some (rest.foldl (fun m x => Nat.min m x.created_at) e.created_at)

/-- Remove the first entry satisfying `p`. -/
def removeFirstWith (p : SessionEntry → Bool) : List SessionEntry → List SessionEntry
  | [] => []
  | e :: rest => if p e then rest else e :: removeFirstWith p rest

/-- Embedding of `SmartSessionManager._cleanup_oldest_session`. -/
def cleanup_oldest (t : List SessionEntry) : List SessionEntry :=
  match minCreated t with
  | none => t
  | some m => removeFirstWith (fun e => e.created_at = m) t

/-- Embedding of `SmartSessionManager._create_session` together with the
insert / record / evict steps of the cache-miss path of `get_session`. -/
def createSession (now : Nat) (session_id : String) (st : SessionState) : Nat × SessionState :=
  let obj := st.nextObj
  let table2 := dictInsert st.table ⟨session_id, obj, now⟩
  let created := st.sessions_created + 1
  let table3 := if table2.length > st.max_sessions then cleanup_oldest table2 else table2
  (obj, { st with table := table3, nextObj := st.nextObj + 1, sessions_created := created })

/-- Shallow embedding of `SmartSessionManager.get_session` for an explicitly
given `session_id`: clean up expired sessions, return a live cached session,
otherwise construct a new one (recording the construction), and evict the
oldest entry when the table exceeds `max_sessions`. -/
def get_session (now : Nat) (session_id : String) (st : SessionState) : Nat × SessionState :=
  let table1 := st.table.filter (fun e => ¬ (now - e.created_at > st.session_timeout))
  match table1.find? (fun e => e.key = session_id) with
  | some e =>
    if ¬ (now - e.created_at > st.session_timeout) then
      (e.sessionObj, { st with table := table1 })
    else
      createSession now session_id { st with table := table1 }
  | none => createSession now session_id { st with table := table1 }

/-- The Session-Manager scenario of the claim, starting from an empty table:
a first request at `t1` constructs a session and bumps the created counter, a
second request at `t2` inside the timeout window returns the same object with
no counter bump, and a third request at `t3` after expiry purges the old entry,
returns a fresh object and bumps the counter again. -/
def sessionScenario (timeout maxS n0 c0 t1 t2 t3 : Nat) (key : String) : Prop :=
  (get_session t1 key ⟨[], n0, c0, timeout, maxS⟩).1 = n0
  ∧ (get_session t1 key ⟨[], n0, c0, timeout, maxS⟩).2.sessions_created = c0 + 1
  ∧ (get_session t2 key (get_session t1 key ⟨[], n0, c0, timeout, maxS⟩).2).1
      = (get_session t1 key ⟨[], n0, c0, timeout, maxS⟩).1
  ∧ (get_session t2 key
      (get_session t1 key ⟨[], n0, c0, timeout, maxS⟩).2).2.sessions_created = c0 + 1
  ∧ (get_session t3 key
        (get_session t2 key (get_session t1 key ⟨[], n0, c0, timeout, maxS⟩).2).2).1
      ≠ (get_session t1 key ⟨[], n0, c0, timeout, maxS⟩).1
  ∧ (get_session t3 key
        (get_session t2 key
          (get_session t1 key ⟨[], n0, c0, timeout, maxS⟩).2).2).2.sessions_created = c0 + 2
  ∧ (get_session t3 key
        (get_session t2 key
          (get_session t1 key ⟨[], n0, c0, timeout, maxS⟩).2).2).2.table = [⟨key, n0 + 1, t3⟩]

/-- C5: requesting the same session key twice within the timeout window
returns the same underlying session object and increments the session-created
counter only on the first call; requesting the key after the timeout has
elapsed purges the old entry and returns a newly constructed session,
incrementing the counter again. -/
theorem claim_C5_session_manager (timeout maxS n0 c0 t1 t2 t3 : Nat) (key : String)
    (hmax : 1 ≤ maxS) (hwin : t2 - t1 ≤ timeout) (hexp : timeout < t3 - t1) :
    sessionScenario timeout maxS n0 c0 t1 t2 t3 key := by
  have hm : ¬ ((1 : Nat) > maxS) := not_lt.mpr hmax
  have hA : t2 ≤ timeout + t1 := by omega
  have hB : ¬ (t3 ≤ timeout + t1) := by omega
  have e1 : get_session t1 key ⟨[], n0, c0, timeout, maxS⟩
      = (n0, ⟨[⟨key, n0, t1⟩], n0 + 1, c0 + 1, timeout, maxS⟩) := by
    simp [get_session, createSession, dictInsert, hm]
  have e2 : get_session t2 key ⟨[⟨key, n0, t1⟩], n0 + 1, c0 + 1, timeout, maxS⟩
      = (n0, ⟨[⟨key, n0, t1⟩], n0 + 1, c0 + 1, timeout, maxS⟩) := by
    simp [get_session, List.filter_cons, List.find?_cons, hA]
  have e3 : get_session t3 key ⟨[⟨key, n0, t1⟩], n0 + 1, c0 + 1, timeout, maxS⟩
      = (n0 + 1, ⟨[⟨key, n0 + 1, t3⟩], n0 + 2, c0 + 2, timeout, maxS⟩) := by
    simp [get_session, createSession, dictInsert, List.filter_cons, hB, hm]
  unfold sessionScenario
  rw [e1]
  rw [e2]
  rw [e3]
  refine ⟨rfl, rfl, rfl, rfl, by omega, rfl, rfl⟩

/-- Witness for C5 at timeout 10, max sessions 3, times 0 / 5 / 20. -/
theorem claim_C5_session_manager_witness :
    (1 ≤ 3 ∧ 5 - 0 ≤ 10 ∧ 10 < 20 - 0) ∧ sessionScenario 10 3 0 0 0 5 20 "k" :=
  ⟨by decide, claim_C5_session_manager 10 3 0 0 0 5 20 "k" (by decide) (by decide) (by decide)⟩

/-! ## Field extractor (`TransfermarktBase.get_text_by_xpath`, base.py lines 988-1049)

The parsed page is abstracted by the list of strings the XPath query returns
(`self.page.xpath(xpath)`), and `app.utils.utils.trim` (not among the sources)
by a parameter `t`.  Python list/string indexing and slicing are modelled with
their negative-index and clamping semantics; an out-of-range index is an
`IndexError`. -/

/-- The value held by the local variable `element` in `get_text_by_xpath`:
initially the XPath result list, a single string after `element = element[iloc]`. -/
inductive PyElem where
  | lst (xs : List String)
  | str (s : String)
deriving DecidableEq, Repr

/-- Python `IndexError`. -/
inductive PyExn where
  | indexError
deriving DecidableEq, Repr

/-- Python `xs[i]` on a list: negative indices count from the end, out of
range is `none` (an `IndexError` when used in indexing position). -/
def pyListGet (xs : List α) (i : Int) : Option α :=
  let j : Int := if i < 0 then (xs.length : Int) + i else i
  if 0 ≤ j then xs.get? j.toNat else none

/-- Clamp a Python slice endpoint into `[0, len]`. -/
def pyClamp (len : Nat) (i : Int) : Nat :=
  if i < 0 then (max 0 ((len : Int) + i)).toNat else min i.toNat len

/-- Python `xs[a:b]` (either endpoint optional); never raises. -/
def pySliceList (xs : List α) (a b : Option Int) : List α :=
  let lo := match a with | some i => pyClamp xs.length i | none => 0
  let hi := match b with | some i => pyClamp xs.length i | none => xs.length
  (xs.take hi).drop lo

/-- Python `element[a:b]`: slicing a list gives a list, slicing a string a string. -/
def pySlice : PyElem → Option Int → Option Int → PyElem
  | .lst xs, a, b => .lst (pySliceList xs a b)
  | .str s, a, b => .str ⟨pySliceList s.data a b⟩

/-- Python `element[i]` in string position: a list yields the string at `i`, a
string yields the one-character string at `i`; `none` is an `IndexError`. -/
def pyIndexStr : PyElem → Int → Option String
  | .lst xs, i => pyListGet xs i
  | .str s, i => (pyListGet s.data i).map (fun c => String.mk [c])

/-- Python iteration over `element` (used by `join`): the items of a list, the
characters of a string as one-character strings. -/
def pyIter : PyElem → List String
  | .lst xs => xs
  | .str s => s.data.map (fun c => String.mk [c])

/-- Shallow embedding of `TransfermarktBase.get_text_by_xpath`.  `t` models
`app.utils.utils.trim`; `ms` is the raw XPath result list.  An uncaught
`IndexError` (possible in `element = element[iloc]`) surfaces as `.error`;
only the final `trim(element[pos])` is guarded by `try/except IndexError`. -/
def get_text_by_xpath (t : String → String) (ms : List String) (pos : Int)
    (iloc iloc_from iloc_to : Option Int) (join_str : Option String) :
    Except PyExn (Option String) :=
  if ms = [] then .ok none
  else
    let element : PyElem := .lst ((ms.filter (fun e => ¬ t e = "")).map t)
    let step1 : Except PyExn PyElem :=
      match iloc with
      | some i =>
        match pyIndexStr element i with
        | some s => .ok (.str s)
        | none => .error .indexError
      | none => .ok element
    match step1 with
    | .error ex => .error ex
    | .ok element1 =>
      let element2 := match iloc_from, iloc_to with
        | some a, some b => pySlice element1 (some a) (some b)
        | _, _ => element1
      let element3 := match iloc_to with
        | some b => pySlice element2 none (some b)
        | none => element2
      let element4 := match iloc_from with
        | some a => pySlice element3 (some a) none
        | none => element3
      match join_str with
      | some j => .ok (some (String.intercalate j ((pyIter element4).map t)))
      | none =>
        match pyIndexStr element4 pos with
        | some s => .ok (some (t s))
        | none => .ok none

/-- The trimmed-and-filtered list `element` starts from. -/
def trimmedMatches (t : String → String) (ms : List String) : List String :=
  (ms.filter (fun e => ¬ t e = "")).map t

/-- C8 counterexample: on a document where the selector matched the single
string "a", requesting `iloc = 5` does not return null as the claim states:
the uncaught `element[iloc]` indexing raises an `IndexError`. -/
theorem claim_C8_counterexample :
    get_text_by_xpath (fun s => s) ["a"] 0 (some 5) none none none ≠ .ok none
    ∧ get_text_by_xpath (fun s => s) ["a"] 0 (some 5) none none none
        = .error .indexError := by
  have h : get_text_by_xpath (fun s => s) ["a"] 0 (some 5) none none none
      = .error .indexError := rfl
  exact ⟨by rw [h]; exact fun hc => Except.noConfusion hc, h⟩

/-- C8 amended: `get_text_by_xpath` returns the selected trimmed string, and
returns null when the selector matched nothing (for every combination of the
optional arguments) or when `pos` is out of range of the trimmed match list;
but an out-of-range `iloc` raises an uncaught `IndexError` instead of
returning null. -/
theorem claim_C8_extract_text (t : String → String) (ms : List String) (pos : Int) :
    (∀ (iloc iloc_from iloc_to : Option Int) (join_str : Option String),
        get_text_by_xpath t [] pos iloc iloc_from iloc_to join_str = .ok none)
    ∧ (∀ s, pyListGet (trimmedMatches t ms) pos = some s →
        get_text_by_xpath t ms pos none none none none = .ok (some (t s)))
    ∧ (pyListGet (trimmedMatches t ms) pos = none →
        get_text_by_xpath t ms pos none none none none = .ok none)
    ∧ (∀ i : Int, ms ≠ [] → pyListGet (trimmedMatches t ms) i = none →
        get_text_by_xpath t ms pos (some i) none none none = .error .indexError) := by
  refine ⟨?_, ?_, ?_, ?_⟩
  · intro iloc iloc_from iloc_to join_str
    simp [get_text_by_xpath]
  · intro s hp
    by_cases hm : ms = []
    · rw [hm] at hp
      simp [trimmedMatches, pyListGet] at hp
    · simp only [get_text_by_xpath, hm, if_false]
      rw [show (ms.filter (fun e => ¬ t e = "")).map t = trimmedMatches t ms from rfl]
      simp [pyIndexStr, hp]
  · intro hp
    by_cases hm : ms = []
    · simp [get_text_by_xpath, hm]
    · simp only [get_text_by_xpath, hm, if_false]
      rw [show (ms.filter (fun e => ¬ t e = "")).map t = trimmedMatches t ms from rfl]
      simp [pyIndexStr, hp]
  · intro i hm hp
    simp only [get_text_by_xpath, hm, if_false]
    rw [show (ms.filter (fun e => ¬ t e = "")).map t = trimmedMatches t ms from rfl]
    simp [pyIndexStr, hp]

/-- Witness for C8 at trim = identity, ms ["a", "b"]. -/
theorem claim_C8_extract_text_witness :
    get_text_by_xpath (fun s => s) [] 0 none none none none = .ok none
    ∧ pyListGet (trimmedMatches (fun s => s) ["a", "b"]) 1 = some "b"
    ∧ get_text_by_xpath (fun s => s) ["a", "b"] 1 none none none none = .ok (some "b")
    ∧ pyListGet (trimmedMatches (fun s => s) ["a", "b"]) 5 = none
    ∧ get_text_by_xpath (fun s => s) ["a", "b"] 5 none none none none = .ok none
    ∧ get_text_by_xpath (fun s => s) ["a", "b"] 0 (some 7) none none none
        = .error .indexError := by
  have h := claim_C8_extract_text (fun s => s) ["a", "b"]
  refine ⟨(claim_C8_extract_text (fun s => s) [] 0).1 none none none none,
    by decide,
    (claim_C8_extract_text (fun s => s) ["a", "b"] 1).2.1 "b" (by decide),
    by decide,
    (claim_C8_extract_text (fun s => s) ["a", "b"] 5).2.2.1 (by decide),
    (claim_C8_extract_text (fun s => s) ["a", "b"] 0).2.2.2 7 (by decide) (by decide)⟩

/-! ## Competition clubs (`TransfermarktCompetitionClubs`, competitions/clubs.py)

`urls` and `names` are the two XPath result lists (participants table for
national-team competitions, the normal table otherwise);
`app.utils.utils.extract_from_url` is the parameter `extract`. -/

/-- The `NATIONAL_TEAM_COMPETITIONS` mapping at the top of competitions/clubs.py. -/
def NATIONAL_TEAM_COMPETITIONS : List (String × String) :=
  [("FIWC", "world-cup"), ("EURO", "uefa-euro"), ("COPA", "copa-america"),
   ("AFAC", "afc-asian-cup"), ("GOCU", "gold-cup"), ("AFCN", "africa-cup")]

/-- The `expected_sizes` dict inside `__parse_competition_clubs`. -/
def expected_sizes : List (String × Nat) :=
  [("FIWC", 32), ("EURO", 24), ("COPA", 12), ("AFAC", 24), ("GOCU", 16), ("AFCN", 24)]

/-- The expected-tournament-size truncation block of `__parse_competition_clubs`
(`if expected_size and len(urls) > expected_size: ...`). -/
def truncate_participants (is_national_team : Bool) (competition_id : String)
    (urls names : List String) : List String × List String :=
  if is_national_team then
    match expected_sizes.lookup competition_id with
    | some k => if k ≠ 0 ∧ urls.length > k then (urls.take k, names.take k) else (urls, names)
    | none => (urls, names)
  else
    (urls, names)

/-- The f-string of the `ValueError` raised on an id/name length mismatch. -/
def mismatch_message (nIds nNames : Nat) (competition_id url : String) : String :=
  "Data mismatch: found " ++ toString nIds ++ " IDs but " ++ toString nNames
    ++ " names for competition " ++ competition_id ++ " (URL: " ++ url
    ++ "). This indicates a parsing error that could cause data loss or misalignment."

/-- Shallow embedding of `__parse_competition_clubs`: truncate to the expected
tournament size, map `extract_from_url` over the urls to get ids, abort with a
`ValueError` naming both lengths and the URL when ids and names disagree in
length, otherwise zip ids and names into one record per index. -/
def parse_competition_clubs (extract : String → Option String)
    (is_national_team : Bool) (competition_id url : String)
    (urls names : List String) : Except String (List (Option String × String)) :=
  let p := truncate_participants is_national_team competition_id urls names
  let ids := p.1.map extract
  if ids.length ≠ p.2.length then
    .error (mismatch_message ids.length p.2.length competition_id url)
  else
    .ok (ids.zip p.2)

/-- C6: whenever the extracted club-id list and club-name list differ in
length after the truncation rules, `__parse_competition_clubs` aborts with a
data-integrity error whose message names both lengths and the URL, and returns
no records; when the lengths agree it returns exactly one record per index. -/
theorem claim_C6_competition_clubs (extract : String → Option String)
    (is_national_team : Bool) (cid url : String) (urls names : List String) :
    ((truncate_participants is_national_team cid urls names).1.length
        ≠ (truncate_participants is_national_team cid urls names).2.length →
      parse_competition_clubs extract is_national_team cid url urls names
        = .error (mismatch_message
            (truncate_participants is_national_team cid urls names).1.length
            (truncate_participants is_national_team cid urls names).2.length cid url))
    ∧ ((truncate_participants is_national_team cid urls names).1.length
        = (truncate_participants is_national_team cid urls names).2.length →
      parse_competition_clubs extract is_national_team cid url urls names
        = .ok (((truncate_participants is_national_team cid urls names).1.map extract).zip
            (truncate_participants is_national_team cid urls names).2)
      ∧ (((truncate_participants is_national_team cid urls names).1.map extract).zip
            (truncate_participants is_national_team cid urls names).2).length
          = (truncate_participants is_national_team cid urls names).1.length) := by
  constructor
  · intro h
    simp only [parse_competition_clubs, List.length_map]
    rw [if_pos h]
  · intro h
    constructor
    · simp only [parse_competition_clubs, List.length_map]
      rw [if_neg (by simp [h])]
    · simp [List.length_zip, List.length_map, h]

/-- Witness for C6: a two-url/one-name page aborts with the message naming
lengths 2 and 1, a two-url/two-name page yields two records. -/
theorem claim_C6_competition_clubs_witness :
    (2 ≠ 1 ∧ parse_competition_clubs some false "GB1" "u" ["a", "b"] ["x"]
        = .error (mismatch_message 2 1 "GB1" "u"))
    ∧ parse_competition_clubs some false "GB1" "u" ["a", "b"] ["x", "y"]
        = .ok [(some "a", "x"), (some "b", "y")] :=
  ⟨⟨by decide,
    (claim_C6_competition_clubs some false "GB1" "u" ["a", "b"] ["x"]).1 (by decide)⟩,
    ((claim_C6_competition_clubs some false "GB1" "u" ["a", "b"] ["x", "y"]).2 (by decide)).1⟩

/-! ## National-team season arithmetic (competitions/clubs.py lines 47-71 and 175-191)

Python's decimal `str`/`int` conversions are modelled by `pyStrNat` /
`pyStrInt` / `pyIntOfDigits`, and `str.isdigit` by `pyIsDigit`. -/

/-- The ASCII digit character for `k < 10`. -/
def digitChar (k : Nat) : Char := Char.ofNat (48 + k)

/-- Decimal digits of `n`, driven by a fuel argument so that the recursion is
structural (any `fuel ≥ n` gives the digits of `n`; empty for 0). -/
def natDigitsAux : Nat → Nat → List Char
  | 0, _ => []
  | fuel + 1, n => if n = 0 then [] else natDigitsAux fuel (n / 10) ++ [digitChar (n % 10)]

/-- Decimal digits of `n` (empty for 0; the printer special-cases 0). -/
def natDigits (n : Nat) : List Char := natDigitsAux n n

/-- Model of Python `str(n)` for a non-negative int. -/
def pyStrNat (n : Nat) : String := if n = 0 then "0" else ⟨natDigits n⟩

/-- Model of Python `str(i)` for any int. -/
def pyStrInt : Int → String
  | .ofNat n => pyStrNat n
  | .negSucc m => "-" ++ pyStrNat (m + 1)

/-- Model of Python `s.isdigit()` (ASCII digits). -/
def pyIsDigit (s : String) : Bool := !s.data.isEmpty && s.data.all (fun c => c.isDigit)

/-- Model of Python `int(s)` for an all-digit string. -/
def parseDigits (l : List Char) : Nat := l.foldl (fun a c => a * 10 + (c.toNat - 48)) 0

/-- Model of Python `int(s)` applied to a digit-only string. -/
def pyIntOfDigits (s : String) : Nat := parseDigits s.data

/-- Shallow embedding of `__get_national_team_url`: unknown competition ids
raise `ValueError`; an all-digit season is decremented by one in the URL's
`saison_id` segment; `None` renders as the literal "None" in the f-string. -/
def get_national_team_url (competition_id : String) (season_id : Option String) :
    Except String String :=
  match NATIONAL_TEAM_COMPETITIONS.lookup competition_id with
  | none => .error ("Unknown national team competition: " ++ competition_id)
  | some slug =>
    let url_season_id : String :=
      match season_id with
      | none => "None"
      | some s => if pyIsDigit s then pyStrInt ((pyIntOfDigits s : Int) - 1) else s
    .ok ("https://www.transfermarkt.com/" ++ slug ++ "/teilnehmer/pokalwettbewerb/"
      ++ competition_id ++ "/saison_id/" ++ url_season_id)

/-- Shallow embedding of the national-team `seasonId` computation in
`get_competition_clubs`: the season extracted from the canonical URL is
incremented by one when all-digit, echoed verbatim when non-empty otherwise,
with the caller-provided season as fallback; `none` means no `seasonId` key. -/
def national_team_season_response (url_season_id season_id : Option String) : Option String :=
  let truthy : Option String → Bool := fun o =>
    match o with
    | some s => ¬ s = ""
    | none => false
  if truthy url_season_id ∧ pyIsDigit (url_season_id.getD "") then
    some (pyStrNat (pyIntOfDigits (url_season_id.getD "") + 1))
  else if truthy url_season_id then
    url_season_id
  else if truthy season_id then
    season_id
  else
    none

theorem parseDigits_append_digit (l : List Char) (c : Char) :
    parseDigits (l ++ [c]) = parseDigits l * 10 + (c.toNat - 48) := by
  simp [parseDigits, List.foldl_append]

theorem digitChar_toNat (k : Nat) (h : k < 10) : (digitChar k).toNat = 48 + k := by
  interval_cases k <;> decide

theorem digitChar_isDigit (k : Nat) (h : k < 10) : (digitChar k).isDigit = true := by
  interval_cases k <;> decide

theorem parseDigits_natDigitsAux :
    ∀ fuel n : Nat, n ≤ fuel → parseDigits (natDigitsAux fuel n) = n := by
  intro fuel
  induction fuel with
  | zero =>
    intro n hn
    have : n = 0 := Nat.le_zero.mp hn
    rw [this]
    rfl
  | succ k ih =>
    intro n hn
    by_cases h0 : n = 0
    · rw [h0, natDigitsAux, if_pos rfl]
      rfl
    · rw [natDigitsAux, if_neg h0, parseDigits_append_digit,
        ih (n / 10) (by omega),
        digitChar_toNat _ (Nat.mod_lt _ (by norm_num))]
      omega

theorem parseDigits_natDigits (n : Nat) : parseDigits (natDigits n) = n :=
  parseDigits_natDigitsAux n n le_rfl

theorem natDigitsAux_all_digit :
    ∀ fuel n : Nat, (natDigitsAux fuel n).all Char.isDigit = true := by
  intro fuel
  induction fuel with
  | zero => intro n; rfl
  | succ k ih =>
    intro n
    by_cases h0 : n = 0
    · rw [h0, natDigitsAux, if_pos rfl]
      rfl
    · rw [natDigitsAux, if_neg h0]
      simp only [List.all_append]
      rw [ih (n / 10)]
      simp [digitChar_isDigit _ (Nat.mod_lt n (by norm_num))]

theorem natDigits_all_digit (n : Nat) : (natDigits n).all Char.isDigit = true :=
  natDigitsAux_all_digit n n

theorem natDigits_ne_nil (n : Nat) (h : 0 < n) : natDigits n ≠ [] := by
  match n, h with
  | Nat.succ m, _ =>
    rw [natDigits, natDigitsAux, if_neg (Nat.succ_ne_zero m)]
    simp

theorem pyIntOfDigits_pyStrNat (n : Nat) : pyIntOfDigits (pyStrNat n) = n := by
  by_cases h : n = 0
  · rw [h]; decide
  · rw [pyStrNat, if_neg h]
    exact parseDigits_natDigits n

theorem pyIsDigit_pyStrNat (n : Nat) : pyIsDigit (pyStrNat n) = true := by
  by_cases h : n = 0
  · rw [h]; decide
  · rw [pyStrNat, if_neg h]
    have hne := natDigits_ne_nil n (Nat.pos_of_ne_zero h)
    simp only [pyIsDigit]
    rw [natDigits_all_digit n]
    simp [List.isEmpty_iff, hne]

theorem pyStrNat_ne_empty (n : Nat) : pyStrNat n ≠ "" := by
  by_cases h : n = 0
  · rw [h]; decide
  · rw [pyStrNat, if_neg h]
    have hne := natDigits_ne_nil n (Nat.pos_of_ne_zero h)
    intro hc
    exact hne (congrArg String.data hc)

/-- C9 counterexample: the requested all-digit season "0" does not round-trip:
the fetch URL is built with `saison_id=-1`, and a page echoing that value
yields seasonId "-1" (the non-digit branch), not "0". -/
theorem claim_C9_counterexample :
    get_national_team_url "FIWC" (some "0")
      = .ok "https://www.transfermarkt.com/world-cup/teilnehmer/pokalwettbewerb/FIWC/saison_id/-1"
    ∧ national_team_season_response (some "-1") none = some "-1"
    ∧ some "-1" ≠ some "0" := by
  refine ⟨rfl, rfl, by decide⟩

/-- C9 amended: for every known national-team competition id and every season
given as the canonical decimal numeral of a year `n ≥ 1`, the fetch URL ends in
`saison_id/` followed by the numeral of `n - 1`, and when the page echoes that
URL season the computed response seasonId is exactly the numeral of `n` (for
season "0" or numerals with leading zeros the round-trip fails, see the
counterexample). -/
theorem claim_C9_season_round_trip (cid slug : String)
    (hcid : NATIONAL_TEAM_COMPETITIONS.lookup cid = some slug)
    (n : Nat) (hn : 1 ≤ n) :
    get_national_team_url cid (some (pyStrNat n))
      = .ok ("https://www.transfermarkt.com/" ++ slug ++ "/teilnehmer/pokalwettbewerb/"
          ++ cid ++ "/saison_id/" ++ pyStrNat (n - 1))
    ∧ national_team_season_response (some (pyStrNat (n - 1))) none = some (pyStrNat n) := by
  have hsub : ((pyIntOfDigits (pyStrNat n) : Int) - 1) = ((n - 1 : Nat) : Int) := by
    rw [pyIntOfDigits_pyStrNat]
    omega
  constructor
  · simp only [get_national_team_url, hcid]
    rw [if_pos (pyIsDigit_pyStrNat n)]
    rw [hsub]
    rfl
  · simp only [national_team_season_response]
    rw [if_pos ⟨by simp [pyStrNat_ne_empty], by simp [pyIsDigit_pyStrNat]⟩]
    simp only [Option.getD_some]
    rw [pyIntOfDigits_pyStrNat]
    congr 1
    congr 1
    omega

/-- Witness for C9 at the World Cup id and season 2006. -/
theorem claim_C9_season_round_trip_witness :
    (NATIONAL_TEAM_COMPETITIONS.lookup "FIWC" = some "world-cup" ∧ 1 ≤ 2006)
    ∧ get_national_team_url "FIWC" (some (pyStrNat 2006))
        = .ok ("https://www.transfermarkt.com/world-cup/teilnehmer/pokalwettbewerb/"
            ++ "FIWC" ++ "/saison_id/" ++ pyStrNat 2005)
    ∧ national_team_season_response (some (pyStrNat 2005)) none = some (pyStrNat 2006) := by
  have h := claim_C9_season_round_trip "FIWC" "world-cup" (by decide) 2006 (by decide)
  exact ⟨⟨by decide, by decide⟩, h.1, h.2⟩

/-! ## Club players (`TransfermarktClubPlayers.__parse_club_players`, clubs/players.py)

The document is abstracted by the results of the XPath queries the method
runs: `players_urls`/`players_names`/`players_positions` are `get_list_by_xpath`
results, `dob_age_list` the (twice-queried) `DOB_AGE` list, the `page_*` lists
the raw element lists with each element abstracted by what its relative
queries return (`none` models a `None` entry guard), and `all_player_rows` the
national-team roster rows.  `extract_from_url`, the two `safe_regex(_, REGEX_DOB, _)`
projections and `trim` (all in `app/utils/utils.py`, not among the sources) are
the parameters `extract`, `dobOf`, `ageOf` and `t`.  A player dict is modelled
as an association list so that its key set is an observable. -/

/-- A value of the player dict: a string, Python `None`, or a list of strings. -/
inductive PyVal where
  | str (s : String)
  | none
  | lst (xs : List String)
deriving DecidableEq, Repr

/-- Inject an optional string as a dict value. -/
def optVal : Option String → PyVal
  | some s => .str s
  | Option.none => .none

/-- An element of `page_players_infos`, abstracted by the results of the two
relative queries run on it (`JOINED` and `STATUSES` text lists). -/
structure InfoCell where
  joined : List String
  statuses : List String
deriving DecidableEq, Repr

/-- A row of the national-team roster table: the profile hrefs found in its
hauptlink cells and the text nodes of each of its `td` cells. -/
structure PlayerRow where
  hrefs : List String
  tds : List (List String)
deriving DecidableEq, Repr

/-- The tuple of query results `__parse_club_players` reads from one document. -/
structure ClubPlayersPage where
  page_nationalities : List (Option (List String))
  page_players_infos : List (Option InfoCell)
  page_players_signed_from : List (Option (List String))
  page_players_joined_on : List (Option (List String))
  players_urls : List String
  players_names : List String
  players_positions : List String
  dob_age_list : List String
  all_player_rows : List PlayerRow
  current_club_list : List String
  heights_list : List String
  foots_list : List String
  contracts_list : List String
  marketvalues_list : List String
deriving DecidableEq, Repr

/-- The fixed key set of every player dict built by `__parse_club_players`. -/
def record_keys : List String :=
  ["id", "name", "position", "dateOfBirth", "age", "nationality", "currentClub",
   "height", "foot", "joinedOn", "joined", "signedFrom", "contract", "marketValue",
   "status"]

/-- The player dict literal of `__parse_club_players`. -/
def mkPlayerRecord (idx : Option String) (name : String) (position dob age : Option String)
    (nationality : List String) (current_club height foot : Option String)
    (joined_on joined signed_from : String)
    (contract market_value status : Option String) : List (String × PyVal) :=
  [("id", optVal idx), ("name", .str name), ("position", optVal position),
   ("dateOfBirth", optVal dob), ("age", optVal age), ("nationality", .lst nationality),
   ("currentClub", optVal current_club), ("height", optVal height), ("foot", optVal foot),
   ("joinedOn", .str joined_on), ("joined", .str joined), ("signedFrom", .str signed_from),
   ("contract", optVal contract), ("marketValue", optVal market_value),
   ("status", optVal status)]

/-- The `(lst + [v] * base_length)[:base_length]` alignment applied to a field
list whose length differs from `base_length`. -/
def alignTo (base : Nat) (v : α) (l : List α) : List α :=
  if l.length = base then l else (l ++ List.replicate base v).take base

/-- Model of Python's built-in `str.strip()`. -/
def pyStrip (s : String) : String := s.trim

/-- Model of `"; ".join(xs)`. -/
def joinSemi (xs : List String) : String := String.intercalate "; " xs

/-- `"".join(tds[i].xpath(".//text()")).strip()` guarded by `len(tds) > i`,
with an empty result turned into `None` (`pos_text if pos_text else None`). -/
def rowCellText (row : PlayerRow) (i : Nat) : Option String :=
  if row.tds.length > i then
    let s := pyStrip (String.join ((row.tds.get? i).getD []))
    if s = "" then Option.none else some s
  else
    Option.none

/-- The per-url national-team row scan: first row whose hauptlink hrefs contain
the url yields (position text of TD 4, DOB/age text of TD 5); a url found in no
row yields `(None, None)`. -/
def findPlayerRowData (rows : List PlayerRow) (url : String) : Option String × Option String :=
  match rows.find? (fun r => r.hrefs.contains url) with
  | some r => (rowCellText r 4, rowCellText r 5)
  | Option.none => (Option.none, Option.none)

/-- Shallow embedding of `__parse_club_players`.  The final `zip` of the 15
field lists is Python's `zip`, which stops at the shortest list; it is modelled
by nested `List.zip` (also shortest-truncating). -/
def parse_club_players (extract : String → Option String)
    (dobOf ageOf : Option String → Option String) (t : String → String)
    (past : Bool) (is_national_team_flag : Option Bool)
    (pg : ClubPlayersPage) : List (List (String × PyVal)) :=
  let players_ids := pg.players_urls.map extract
  let is_national_team : Bool :=
    match is_national_team_flag with
    | some b => b
    | Option.none => (pg.page_players_infos.length == 0) && (pg.players_names.length != 0)
  let posDobAge : List (Option String) × List (Option String) × List (Option String) :=
    if is_national_team then
      let pairs := pg.players_urls.map (findPlayerRowData pg.all_player_rows)
      (pairs.map Prod.fst, (pairs.map Prod.snd).map dobOf, (pairs.map Prod.snd).map ageOf)
    else
      (pg.players_positions.map some,
       pg.dob_age_list.map (fun s => dobOf (some s)),
       pg.dob_age_list.map (fun s => ageOf (some s)))
  let players_positions := posDobAge.1
  let players_dobs := posDobAge.2.1
  let players_ages := posDobAge.2.2
  let base_length := players_ids.length
  let players_names := alignTo base_length "" pg.players_names
  let players_nationalities :=
    alignTo base_length []
      (if pg.page_nationalities.isEmpty then []
       else pg.page_nationalities.map (fun cell =>
         match cell with
         | some ns => (ns.filter (fun x => ¬ t x = "")).map t
         | Option.none => []))
  let players_current_club :=
    alignTo base_length Option.none
      (if past then pg.current_club_list.map some
       else List.replicate base_length Option.none)
  let players_heights := alignTo base_length Option.none (pg.heights_list.map some)
  let players_foots := alignTo base_length Option.none (pg.foots_list.map some)
  let players_joined_on :=
    alignTo base_length ""
      (if pg.page_players_joined_on.isEmpty then []
       else pg.page_players_joined_on.map (fun cell =>
         match cell with
         | some xs => joinSemi xs
         | Option.none => ""))
  let players_joined :=
    alignTo base_length ""
      (if pg.page_players_infos.isEmpty then []
       else pg.page_players_infos.map (fun cell =>
         match cell with
         | some c => joinSemi c.joined
         | Option.none => ""))
  let players_signed_from :=
    alignTo base_length ""
      (if pg.page_players_signed_from.isEmpty then []
       else pg.page_players_signed_from.map (fun cell =>
         match cell with
         | some xs => joinSemi xs
         | Option.none => ""))
  let players_contracts :=
    alignTo base_length Option.none
      (if past then List.replicate base_length Option.none
       else pg.contracts_list.map some)
  let players_marketvalues := alignTo base_length Option.none (pg.marketvalues_list.map some)
  let players_statuses :=
    alignTo base_length Option.none
      ((pg.page_players_infos.filterMap id).map (fun c => some (joinSemi c.statuses)))
  (players_ids.zip (players_names.zip (players_positions.zip (players_dobs.zip
    (players_ages.zip (players_nationalities.zip (players_current_club.zip
    (players_heights.zip (players_foots.zip (players_joined_on.zip
    (players_joined.zip (players_signed_from.zip (players_contracts.zip
    (players_marketvalues.zip players_statuses)))))))))))))).map
    (fun x =>
      match x with
      | (idx, name, position, dob, age, nationality, current_club, height, foot,
         joined_on, joined, signed_from, contract, market_value, status) =>
        mkPlayerRecord idx name position dob age nationality current_club height foot
          joined_on joined signed_from contract market_value status)

theorem alignTo_length (base : Nat) (v : α) (l : List α) : (alignTo base v l).length = base := by
  unfold alignTo
  by_cases h : l.length = base
  · rw [if_pos h, h]
  · rw [if_neg h]
    simp only [List.length_take, List.length_append, List.length_replicate]
    omega

/-- A club-layout page with 2 player urls but only 1 position entry. -/
def c1FailPage : ClubPlayersPage :=
  { page_nationalities := [some ["FR"], some ["DE"]],
    page_players_infos := [],
    page_players_signed_from := [],
    page_players_joined_on := [],
    players_urls := ["u1", "u2"],
    players_names := ["A", "B"],
    players_positions := ["GK"],
    dob_age_list := ["d1", "d2"],
    all_player_rows := [],
    current_club_list := [],
    heights_list := [],
    foots_list := [],
    contracts_list := [],
    marketvalues_list := [] }

/-- C1: every player dict produced by `__parse_club_players` has the same
fixed 15-key shape, and in the national-team layout the number of records
equals the Canonical Count (the length of the player-url list); but in the
club layout the `zip` truncates to the unpadded position/DOB lists, so on the
failing input (2 urls, 1 position entry, club layout) only 1 record is emitted
instead of the Canonical Count 2. -/
theorem claim_C1_club_players_shape :
    (∀ (extract : String → Option String) (dobOf ageOf : Option String → Option String)
       (t : String → String) (past : Bool) (flag : Option Bool) (pg : ClubPlayersPage),
       ∀ rec ∈ parse_club_players extract dobOf ageOf t past flag pg,
         rec.map Prod.fst = record_keys)
    ∧ (∀ (extract : String → Option String) (dobOf ageOf : Option String → Option String)
       (t : String → String) (past : Bool) (pg : ClubPlayersPage),
       (parse_club_players extract dobOf ageOf t past (some true) pg).length
         = pg.players_urls.length)
    ∧ (∀ (extract : String → Option String) (dobOf ageOf : Option String → Option String)
       (t : String → String) (past : Bool) (pg : ClubPlayersPage),
       (parse_club_players extract dobOf ageOf t past (some false) pg).length
         = min pg.players_urls.length
             (min pg.players_positions.length pg.dob_age_list.length))
    ∧ (parse_club_players some (fun x => x) (fun x => x) (fun s => s) false (some false)
        c1FailPage).length = 1
    ∧ c1FailPage.players_urls.length = 2 := by
  refine ⟨?_, ?_, ?_, by decide, by decide⟩
  · intro extract dobOf ageOf t past flag pg rec hrec
    unfold parse_club_players at hrec
    rcases List.mem_map.mp hrec with ⟨x, hx, hxr⟩
    obtain ⟨idx, name, position, dob, age, nationality, current_club, height, foot,
      joined_on, joined, signed_from, contract, market_value, status⟩ := x
    rw [← hxr]
    rfl
  · intro extract dobOf ageOf t past pg
    simp [parse_club_players, List.length_zip, alignTo_length, List.length_map]
  · intro extract dobOf ageOf t past pg
    simp [parse_club_players, List.length_zip, alignTo_length, List.length_map]
    omega

/-- A club-layout page with 25 player urls and only 24 nationality cells (and a
shorter name list), whose padded fields must be filled with neutral values. -/
def c2PadPage : ClubPlayersPage :=
  { page_nationalities := List.replicate 24 (some ["X"]),
    page_players_infos := [],
    page_players_signed_from := [],
    page_players_joined_on := [],
    players_urls := List.replicate 25 "u",
    players_names := List.replicate 23 "A",
    players_positions := List.replicate 25 "GK",
    dob_age_list := List.replicate 25 "d",
    all_player_rows := [],
    current_club_list := [],
    heights_list := [],
    foots_list := [],
    contracts_list := [],
    marketvalues_list := [] }

/-- A club-layout page with 3 player urls but only 2 position entries. -/
def c2FailPage : ClubPlayersPage :=
  { page_nationalities := [some ["FR"], some ["DE"], some ["IT"]],
    page_players_infos := [],
    page_players_signed_from := [],
    page_players_joined_on := [],
    players_urls := ["v1", "v2", "v3"],
    players_names := ["A", "B", "C"],
    players_positions := ["GK", "CB"],
    dob_age_list := ["d1", "d2", "d3"],
    all_player_rows := [],
    current_club_list := [],
    heights_list := [],
    foots_list := [],
    contracts_list := [],
    marketvalues_list := [] }

/-- C2: on a club roster page with 25 player urls and 24 nationality cells the
assembler yields 25 records whose 25th has the empty nationality list, with
other short padded fields (here the 23-entry name list) likewise filled with
their neutral value, and no error is raised; but the position/DOB/age field
lists are not padded, so on the failing input (3 urls, 2 position entries) the
record at the missing position is dropped entirely instead of carrying a
neutral value. -/
theorem claim_C2_neutral_padding :
    (parse_club_players some (fun x => x) (fun x => x) (fun s => s) false (some false)
        c2PadPage).length = 25
    ∧ ((parse_club_players some (fun x => x) (fun x => x) (fun s => s) false (some false)
        c2PadPage).get? 24).map (fun r => List.lookup "nationality" r)
        = some (some (PyVal.lst []))
    ∧ ((parse_club_players some (fun x => x) (fun x => x) (fun s => s) false (some false)
        c2PadPage).get? 23).map (fun r => List.lookup "nationality" r)
        = some (some (PyVal.lst ["X"]))
    ∧ ((parse_club_players some (fun x => x) (fun x => x) (fun s => s) false (some false)
        c2PadPage).get? 24).map (fun r => List.lookup "name" r)
        = some (some (PyVal.str ""))
    ∧ (parse_club_players some (fun x => x) (fun x => x) (fun s => s) false (some false)
        c2FailPage).length = 2
    ∧ c2FailPage.players_urls.length = 3 := by
  refine ⟨by decide, by decide, by decide, by decide, by decide, by decide⟩

/-! ## Player search (`TransfermarktPlayerSearch.__parse_search_results`, players/search.py)

Each result row is abstracted by the results of the eight relative XPath
queries run on it; `extract_from_url` and the `safe_regex(..., "club_id")`
projection (both in `app/utils/utils.py`, not among the sources) are the
parameters `extract` and `clubIdOf`, and `trim` is `t`. -/

/-- One search-result row, abstracted by its relative query results. -/
structure SearchRow where
  idList : List String
  nameList : List String
  positionList : List String
  clubNameList : List String
  clubImageList : List String
  ageList : List String
  natsList : List String
  mvList : List String
deriving DecidableEq, Repr

/-- One player search record. -/
structure SearchRecord where
  id : Option String
  name : Option String
  position : Option String
  clubName : Option String
  clubId : Option String
  age : Option String
  nationalities : List String
  marketValue : Option String
deriving DecidableEq, Repr

/-- Python truthiness of an optional string (`if idx:`). -/
def truthyOpt : Option String → Bool
  | some s => ¬ s = ""
  | Option.none => false

/-- `trim(lst[0]) if lst and lst[0] else None`. -/
def headTrimmed (t : String → String) : List String → Option String
  | [] => Option.none
  | x :: _ => if x = "" then Option.none else some (t x)

/-- Shallow embedding of `__parse_search_results`: extract the per-row fields
and append a record only when a truthy player id was extracted. -/
def parse_search_results (extract clubIdOf : Option String → Option String)
    (t : String → String) (rows : List SearchRow) : List SearchRecord :=
  rows.filterMap (fun r =>
    let idx := extract r.idList.head?
    if truthyOpt idx then
      some { id := idx,
             name := headTrimmed t r.nameList,
             position := headTrimmed t r.positionList,
             clubName := headTrimmed t r.clubNameList,
             clubId := clubIdOf r.clubImageList.head?,
             age := headTrimmed t r.ageList,
             nationalities := (r.natsList.filter (fun n => ¬ n = "" ∧ ¬ t n = "")).map t,
             marketValue := headTrimmed t r.mvList }
    else
      Option.none)

/-- A row from which no player id can be extracted. -/
def idlessRow : SearchRow := ⟨["h"], ["N"], [], [], [], [], [], []⟩

/-- C10: a result row from which no player identifier can be extracted is
silently omitted, so every returned search record has a truthy (non-null,
non-empty) id, the number of records never exceeds the number of rows, and it
can be strictly smaller (an id-less row yields no record at all). -/
theorem claim_C10_search_omits_idless (extract clubIdOf : Option String → Option String)
    (t : String → String) (rows : List SearchRow) :
    (∀ rec ∈ parse_search_results extract clubIdOf t rows,
       ∃ s, rec.id = some s ∧ s ≠ "")
    ∧ (parse_search_results extract clubIdOf t rows).length ≤ rows.length
    ∧ parse_search_results (fun _ => Option.none) (fun x => x) (fun s => s) [idlessRow]
        = [] := by
  refine ⟨?_, List.length_filterMap_le _ _, by decide⟩
  intro rec hrec
  rcases List.mem_filterMap.mp hrec with ⟨r, hr, hf⟩
  by_cases ht : truthyOpt (extract r.idList.head?)
  · rw [if_pos ht] at hf
    cases he : extract r.idList.head? with
    | none => rw [he] at ht; exact absurd ht (by simp [truthyOpt])
    | some s =>
      refine ⟨s, ?_, ?_⟩
      · have : rec.id = extract r.idList.head? := by
          rw [← Option.some_inj.mp hf]
        rw [this, he]
      · rw [he] at ht
        simpa [truthyOpt] using ht
  · rw [if_neg ht] at hf
    exact absurd hf (by simp)

/-- The record produced by a row carrying the id "12". -/
def c10Rec : SearchRecord :=
  { id := some "12", name := some "N", position := Option.none,
    clubName := Option.none, clubId := Option.none, age := Option.none,
    nationalities := [], marketValue := Option.none }

/-- Witness for C10: a row with a good permalink yields a record with its
non-empty id. -/
theorem claim_C10_search_omits_idless_witness :
    c10Rec ∈ parse_search_results (fun _ => some "12") (fun x => x) (fun s => s)
        [⟨["h"], ["N"], [], [], [], [], [], []⟩]
    ∧ ∃ s, c10Rec.id = some s ∧ s ≠ "" := by
  refine ⟨by decide, ?_⟩
  exact (claim_C10_search_omits_idless (fun _ => some "12") (fun x => x) (fun s => s)
      [⟨["h"], ["N"], [], [], [], [], [], []⟩]).1 _ (by decide)

end TM
